import Mathlib

/-!
Verification development for the `simple_chat` repository's curses server
tester (`curses_server_testing.py`).  The Python source is shallowly embedded:
the per-endpoint UI record becomes `ServerInfo`, the two mutators
`add_server_message` / `update_server_status` become pure state transformers,
the probe coroutine `test_openai_endpoint_curses` becomes a pure function from
an abstract remote-call outcome to a new state plus its boolean result, and
the `main_curses` event loop becomes a fuel-indexed interpreter over an input
stream.  Timestamps are abstract ticks: every `datetime.now()` call consumes
one tick of a counter threaded through the state.
-/

namespace SimpleChat

/-- Lifecycle status values stored in `server_windows[shortname]['status']`. -/
inductive Status
  | Waiting
  | Running
  | Success
  | Failed
deriving DecidableEq, Repr, Inhabited

/-- One entry of a server window's `lines` buffer. -/
structure Line where
  timestamp : Nat
  message : String
  is_error : Bool
deriving DecidableEq, Repr

/-- The mutable per-endpoint record created by `CursesUI.setup_windows`
(the curses window handle and color are display-only and omitted). -/
structure ServerInfo where
  status : Status
  lines : List Line
  start_time : Option Nat
  end_time : Option Nat
  response_time : Option Nat
  tokens : Option Nat
  response_ok : Bool
deriving DecidableEq, Repr

/-- The record as initialised by `setup_windows`: status `Waiting`, empty
message buffer, no timestamps. -/
def initServerInfo : ServerInfo :=
  { status := .Waiting
    lines := []
    start_time := none
    end_time := none
    response_time := none
    tokens := none
    response_ok := false }

/-- `CursesUI.add_server_message`: append a timestamped entry to `lines`,
then keep only the last 20 entries (`lines[-20:]`). -/
def add_server_message (now : Nat) (si : ServerInfo) (message : String)
    (is_error : Bool) : ServerInfo :=
  let lines := si.lines ++ [{ timestamp := now, message := message, is_error := is_error }]
  if lines.length > 20 then { si with lines := lines.drop (lines.length - 20) }
  else { si with lines := lines }

/-- `CursesUI.update_server_status`: store the new status; on the
`Waiting → Running` transition record `start_time`; when the new status is
terminal and `start_time` is set, record `end_time`. -/
def update_server_status (now : Nat) (si : ServerInfo) (status : Status) : ServerInfo :=
  if si.status = .Waiting ∧ status = .Running then
    { si with status := status, start_time := some now }
  else if (status = .Success ∨ status = .Failed) ∧ si.start_time.isSome then
    { si with status := status, end_time := some now }
  else
    { si with status := status }

/-- Fold of `add_server_message` over a list of (timestamp, text, is_error)
triples, modelling a sequence of appends to one endpoint's log. -/
def addAll (si : ServerInfo) : List (Nat × String × Bool) → ServerInfo
  | [] => si
  | (t, m, e) :: rest => addAll (add_server_message t si m e) rest

/-- The `Line` built from one append's arguments. -/
def mkLine : Nat × String × Bool → Line
  | (t, m, e) => { timestamp := t, message := m, is_error := e }

/-- The last `n` elements of a list (Python `l[-n:]` for nonempty slices). -/
def lastN (n : Nat) (l : List α) : List α := l.drop (l.length - n)

/-- Header band height used by `setup_windows`. -/
def header_height : Nat := 3

/-- Footer band height used by `setup_windows`. -/
def footer_height : Nat := 3

/-- The grid shape chosen by `CursesUI.setup_windows` for `num_servers`
endpoints: the `(rows, cols)` pair. -/
def grid_rows_cols (num_servers : Nat) : Nat × Nat :=
  if num_servers ≤ 2 then (1, num_servers)
  else if num_servers ≤ 4 then (2, 2)
  else if num_servers ≤ 6 then (2, 3)
  else if num_servers ≤ 9 then (3, 3)
  else ((num_servers + 2) / 3, 3)

/-- A rectangular screen region: top-left corner plus size. -/
structure Region where
  y : Nat
  x : Nat
  height : Nat
  width : Nat
deriving DecidableEq, Repr

/-- The region `setup_windows` assigns to the endpoint at index `i`:
`row = i // cols`, `col = i % cols`, window size = available size divided by
the grid shape. -/
def setup_windows_region (max_y max_x num_servers i : Nat) : Region :=
  let available_height := max_y - header_height - footer_height
  let rows := (grid_rows_cols num_servers).1
  let cols := (grid_rows_cols num_servers).2
  let win_height := available_height / rows
  let win_width := max_x / cols
  let row := i / cols
  let col := i % cols
  { y := header_height + row * win_height
    x := col * win_width
    height := win_height
    width := win_width }

/-! ## Python string primitives used by the probe's key handling -/

/-- Python falsiness of a string (`not s` ↔ the string is empty). -/
def strFalsy (s : String) : Bool := s.data.isEmpty

/-- Python falsiness of an optional string (`None` or empty are falsy). -/
def optFalsy : Option String → Bool
  | none => true
  | some s => strFalsy s

/-- Python `s.startswith(p)` on the character-sequence model of strings. -/
def pyStartswith (s p : String) : Bool := p.data.isPrefixOf s.data

/-- Python `s.endswith(p)` on the character-sequence model of strings. -/
def pyEndswith (s p : String) : Bool := p.data.isSuffixOf s.data

/-- Python `s[2:-1]`, used to extract `VAR` from `"$\x7bVAR\x7d"`. -/
def pySlice2m1 (s : String) : String := ⟨(s.data.drop 2).dropLast⟩

/-! ## Probe embedding -/

/-- `MODEL_PARAMS`: model name mapped to its `max_completion_tokens` override. -/
def MODEL_PARAMS : List (String × Nat) :=
  [("o3", 100), ("o4-mini", 150), ("gpt-4.1", 50),
   ("scout", 50), ("Qwen", 50), ("meta-llama/Llama-3.3-70B-Instruct", 50)]

/-- Lookup of `model_name in MODEL_PARAMS`. -/
def modelParams (model_name : String) : Option Nat :=
  (MODEL_PARAMS.find? fun pr => pr.1 == model_name).map (·.2)

/-- Token usage attached to a chat-completion response. -/
structure Usage where
  total_tokens : Nat
  prompt_tokens : Nat
  completion_tokens : Nat
deriving DecidableEq, Repr

/-- Outcome of the opaque remote chat-completion call: a response carrying a
list of choice contents (each possibly `None`) and optional usage, or one of
the classified exceptions the source catches. -/
inductive CallResult
  | ok (choices : List (Option String)) (usage : Option Usage)
  | authError (msg : String)
  | rateLimitError (msg : String)
  | connectionError (msg : String)
  | timeoutError (msg : String)
  | apiError (msg : String)
  | unexpectedError (msg : String)
deriving DecidableEq, Repr

/-- Python falsiness of `response.choices[0].message.content`. -/
def contentFalsy : Option String → Bool
  | none => true
  | some s => strFalsy s

/-- Whether a call outcome is one of the six classified remote failures. -/
def isFailureCall : CallResult → Bool
  | .ok _ _ => false
  | _ => true

/-- Observable actions a probe performs on its endpoint's UI record. -/
inductive PEv
  | setStatus (st : Status)
  | logMsg (text : String) (is_error : Bool)
  | remoteCall
deriving DecidableEq, Repr

/-- Bool test for the `remoteCall` event. -/
def isRemoteCallEv : PEv → Bool
  | .remoteCall => true
  | _ => false

/-- State threaded through one probe: the endpoint's record, the tick clock,
and the list of actions performed so far. -/
structure ProbeSt where
  si : ServerInfo
  t : Nat
  evs : List PEv
deriving DecidableEq, Repr

/-- `ui.update_server_status(shortname, st)` inside a probe. -/
def pset (st : Status) (p : ProbeSt) : ProbeSt :=
  { si := update_server_status p.t p.si st
    t := p.t + 1
    evs := p.evs ++ [.setStatus st] }

/-- `ui.add_server_message(shortname, text, is_error)` inside a probe. -/
def pmsg (text : String) (is_error : Bool) (p : ProbeSt) : ProbeSt :=
  { si := add_server_message p.t p.si text is_error
    t := p.t + 1
    evs := p.evs ++ [.logMsg text is_error] }

/-- The shared failure epilogue of `test_openai_endpoint_curses`: log an error
message, set status `Failed`, return `False`. -/
def probeFail (text : String) (p : ProbeSt) : ProbeSt × Bool :=
  (pset .Failed (pmsg text true p), false)

/-- The token-usage log line emitted after a successful response. -/
def respUsageMsg (u : Usage) : String :=
  "Tokens: " ++ toString u.total_tokens ++ " (prompt=" ++ toString u.prompt_tokens ++
    ", completion=" ++ toString u.completion_tokens ++ ")"

/-- The part of `test_openai_endpoint_curses` after the credential has been
resolved: create the client, send the request, classify the outcome. -/
def probeCall (model_name : String) (call : CallResult) (p : ProbeSt) : ProbeSt × Bool :=
  let p := pmsg "Creating OpenAI client..." false p
  let p := match modelParams model_name with
    | some n =>
        pmsg ("Parameters: \x7b'max_completion_tokens': " ++ toString n ++ "\x7d") false p
    | none => p
  let tStart := p.t
  let p := { p with t := p.t + 1 }
  let p := pmsg "Sending request..." false p
  let p := { p with evs := p.evs ++ [.remoteCall] }
  match call with
  | .authError _ => probeFail "Authentication error: Invalid API key" p
  | .rateLimitError m => probeFail ("Rate limit exceeded: " ++ m) p
  | .connectionError m => probeFail ("Connection error: " ++ m) p
  | .timeoutError m => probeFail ("Timeout error: " ++ m) p
  | .apiError m => probeFail ("OpenAI API Error: " ++ m) p
  | .unexpectedError m => probeFail ("Unexpected error: " ++ m) p
  | .ok choices usage =>
    let tEnd := p.t
    let p := { p with t := p.t + 1 }
    let response_time := tEnd - tStart
    match choices with
    | [] => probeFail "Error: No valid response received" p
    | content :: _ =>
      let p := pmsg ("Response received in " ++ toString response_time ++ "s") false p
      let si := p.si
      let si := { si with response_time := some response_time }
      let si := match usage with
        | some u => { si with tokens := some u.total_tokens }
        | none => si
      let si := { si with response_ok := !(contentFalsy content) }
      let p := { p with si := si }
      let p :=
        if contentFalsy content then
          pmsg "Response: EMPTY (model connected but returned no content)" true p
        else
          pmsg "Response: OK (content received)" false p
      let p := match usage with
        | some u => pmsg (respUsageMsg u) false p
        | none => p
      let p := pset .Success p
      (p, true)

/-- `test_openai_endpoint_curses`: set status `Running`, resolve the API key
(falling back to `OPENAI_API_KEY`, then substituting a `$\x7bVAR\x7d`
environment reference), then issue the probe.  `env` is the process
environment.  Returns the updated state and the function's boolean result. -/
def test_openai_endpoint_curses (env : String → Option String) (model_name : String)
    (api_key : Option String) (call : CallResult) (p0 : ProbeSt) : ProbeSt × Bool :=
  let p := pset .Running p0
  let p := pmsg "Starting test..." false p
  let keyA := if optFalsy api_key then env "OPENAI_API_KEY" else api_key
  match keyA with
  | none => probeFail "Error: OPENAI_API_KEY environment variable not set" p
  | some k =>
    if strFalsy k then
      probeFail "Error: OPENAI_API_KEY environment variable not set" p
    else if pyStartswith k "$\x7b" && pyEndswith k "\x7d" then
      let env_var := pySlice2m1 k
      match env env_var with
      | none => probeFail ("Error: Environment variable " ++ env_var ++ " not set") p
      | some v =>
        if strFalsy v then
          probeFail ("Error: Environment variable " ++ env_var ++ " not set") p
        else probeCall model_name call p
    else probeCall model_name call p

/-- The credential-resolution logic of the probe in isolation: `some value`
when the probe reaches the remote call, `none` when it fails beforehand. -/
def resolveKey (env : String → Option String) (api_key : Option String) : Option String :=
  let keyA := if optFalsy api_key then env "OPENAI_API_KEY" else api_key
  match keyA with
  | none => none
  | some k =>
    if strFalsy k then none
    else if pyStartswith k "$\x7b" && pyEndswith k "\x7d" then
      match env (pySlice2m1 k) with
      | none => none
      | some v => if strFalsy v then none else some v
    else some k

/-- Statuses set by a list of probe actions, in order. -/
def statusEvents (evs : List PEv) : List Status :=
  evs.filterMap fun e =>
    match e with
    | .setStatus st => some st
    | _ => none

/-! ## One iteration over all servers (`run_tests_curses`) -/

/-- Static description of one configured endpoint. -/
structure ServerCfg where
  shortname : String
  openai_model : String
  openai_api_base : String
  openai_api_key : Option String
deriving DecidableEq, Repr

/-- `test_server_curses`: log the API base, then run the probe on this
server's own window state. -/
def test_server_curses (env : String → Option String) (server : ServerCfg)
    (call : CallResult) (p0 : ProbeSt) : ProbeSt × Bool :=
  let p := pmsg ("API Base: " ++ server.openai_api_base) false p0
  test_openai_endpoint_curses env server.openai_model server.openai_api_key call p

/-- `run_tests_curses` fan-out/fan-in: each endpoint's probe runs on its own
window state (`asyncio.gather` over per-server tasks; each task mutates only
its own `server_windows` entry). -/
def run_tests_curses (env : String → Option String)
    (items : List (ServerCfg × CallResult × ProbeSt)) : List (ProbeSt × Bool) :=
  items.map fun it => test_server_curses env it.1 it.2.1 it.2.2

/-- `all_success = all(results)` at the end of `run_tests_curses`. -/
def all_success (results : List (ProbeSt × Bool)) : Bool := results.all (·.2)

/-! ## The `main_curses` event loop -/

/-- Result of one `CursesUI.check_input` poll. -/
inductive Cmd
  | quit
  | refresh
  | resize
  | cnone
deriving DecidableEq, Repr

/-- Observable events of the main loop: an input poll (with the command it
returned), one full probe round (`run_tests_curses`), or the iteration-counter
increment at the end of a naturally completed cooldown. -/
inductive Ev
  | poll (c : Cmd)
  | runTests (iteration : Nat)
  | iterIncr (iteration : Nat)
deriving DecidableEq, Repr

/-- Bool test for a poll event. -/
def isPollEv : Ev → Bool
  | .poll _ => true
  | _ => false

/-- Bool test for a probe-round event. -/
def isRunTestsEv : Ev → Bool
  | .runTests _ => true
  | _ => false

/-- `True` when none of the `n` polls starting at index `start` returns
`quit`. -/
def noQuitWindow (inp : Nat → Cmd) : Nat → Nat → Bool
  | _, 0 => true
  | start, n + 1 => !(inp start == Cmd.quit) && noQuitWindow inp (start + 1) n

/-- The poll events produced by `n` consecutive polls starting at index `k`. -/
def pollWindow (inp : Nat → Cmd) : Nat → Nat → List Ev
  | _, 0 => []
  | k, n + 1 => Ev.poll (inp k) :: pollWindow inp (k + 1) n

/-- The interruptible cooldown wait of `main_curses`: up to `left` ticks, one
input poll per tick; a `quit` breaks out immediately (`running = False`),
`refresh`/`resize` only redraw.  Returns the `running` flag, the next poll
index, and the events. -/
def cooldownLoop (inp : Nat → Cmd) : Nat → Nat → Bool × Nat × List Ev
  | k, 0 => (true, k, [])
  | k, left + 1 =>
    match inp k with
    | Cmd.quit => (false, k + 1, [Ev.poll Cmd.quit])
    | c =>
      let r := cooldownLoop inp (k + 1) left
      (r.1, r.2.1, Ev.poll c :: r.2.2)

/-- Control state of the `while running` loop in `main_curses`. -/
structure MainSt where
  running : Bool
  test_completed : Bool
  iteration : Nat
  k : Nat
deriving DecidableEq, Repr

/-- Loop state on entry to `main_curses`'s testing loop. -/
def initMainSt : MainSt := { running := true, test_completed := false, iteration := 1, k := 0 }

/-- One pass of the `while running` body: poll once at the top; if tests are
pending, run the whole probe round (no polls occur inside it — the body
`await`s `run_tests_curses` to completion), then, when `delayTicks > 0`, run
the interruptible cooldown and on natural completion increment the iteration
and re-arm the tests. -/
def outerBody (delayTicks : Nat) (inp : Nat → Cmd) (s : MainSt) : MainSt × List Ev :=
  let c := inp s.k
  let running1 := if c = Cmd.quit then false else s.running
  let k1 := s.k + 1
  if s.test_completed then
    ({ s with running := running1, k := k1 }, [Ev.poll c])
  else if delayTicks = 0 then
    ({ running := running1, test_completed := true, iteration := s.iteration, k := k1 },
      [Ev.poll c, Ev.runTests s.iteration])
  else
    let cd := cooldownLoop inp k1 delayTicks
    if running1 && cd.1 then
      ({ running := true, test_completed := false, iteration := s.iteration + 1, k := cd.2.1 },
        Ev.poll c :: Ev.runTests s.iteration :: (cd.2.2 ++ [Ev.iterIncr (s.iteration + 1)]))
    else
      ({ running := false, test_completed := true, iteration := s.iteration, k := cd.2.1 },
        Ev.poll c :: Ev.runTests s.iteration :: cd.2.2)

/-- The `while running` loop of `main_curses`, run for at most `fuel` passes. -/
def mainLoop (delayTicks : Nat) (inp : Nat → Cmd) : Nat → MainSt → MainSt × List Ev
  | 0, s => (s, [])
  | fuel + 1, s =>
    if s.running then
      let r := outerBody delayTicks inp s
      let r2 := mainLoop delayTicks inp fuel r.1
      (r2.1, r.2 ++ r2.2)
    else (s, [])

/-! ## Spec predicates and concrete scenario inputs -/

/-- Whether a status is terminal (`Success` or `Failed`). -/
def isTerminalStatus : Status → Bool
  | .Success => true
  | .Failed => true
  | _ => false

/-- The spec sentence "Running never reappears post-terminal without a new
Waiting", as a predicate on a status history. -/
def specNoRunningAfterTerminalWithoutWaiting (hist : List Status) : Prop :=
  ∀ i < hist.length, ∀ j < hist.length,
    (i < j ∧ isTerminalStatus hist[i]! = true ∧ hist[j]! = Status.Running) →
      ∃ m < j, i < m ∧ hist[m]! = Status.Waiting

/-- A fresh probe state: the record as built by `setup_windows`, clock 0. -/
def probeSt0 : ProbeSt := { si := initServerInfo, t := 0, evs := [] }

/-- An environment in which every variable is set (to `"secret"`). -/
def envSecret : String → Option String := fun _ => some "secret"

/-- An environment in which no variable is set. -/
def envUnset : String → Option String := fun _ => none

/-- A successful remote call: one choice with content `"4"`, usage attached. -/
def callOkBasic : CallResult := .ok [some "4"] (some ⟨10, 7, 3⟩)

/-- A reachable-but-empty remote call: one choice whose content is empty. -/
def callOkEmpty : CallResult := .ok [some ""] none

/-- First iteration's probe of one endpoint (concrete successful run). -/
def c1run1 : ProbeSt × Bool :=
  test_openai_endpoint_curses envSecret "gpt-4.1" (some "sk-abc") callOkBasic probeSt0

/-- Second iteration's probe of the same endpoint: the state carries over,
only the action list is fresh. -/
def c1run2 : ProbeSt × Bool :=
  test_openai_endpoint_curses envSecret "gpt-4.1" (some "sk-abc") callOkBasic
    { si := c1run1.1.si, t := c1run1.1.t, evs := [] }

/-- The endpoint's full status history over two iterations: the initial
`Waiting` from `setup_windows` followed by every status the two probes set. -/
def c1history : List Status :=
  Status.Waiting :: (statusEvents c1run1.1.evs ++ statusEvents c1run2.1.evs)

/-- Input stream for the mid-flight-quit scenario: the pre-dispatch poll sees
no key; from the first post-dispatch poll onwards a `quit` is pending. -/
def inpQuitAfterDispatch : Nat → Cmd := fun k => if k = 0 then Cmd.cnone else Cmd.quit

/-- Input stream with no keys pressed. -/
def inpAllNone : Nat → Cmd := fun _ => Cmd.cnone

/-- Input stream with a single `quit` at poll index 2. -/
def inpQuitAt2 : Nat → Cmd := fun k => if k = 2 then Cmd.quit else Cmd.cnone

/-- Twenty-one concrete appends for the message-log witness. -/
def msgs21 : List (Nat × String × Bool) := (List.range 21).map fun i => (i, "m", false)

/-- A concrete endpoint descriptor with a literal key. -/
def cfgLiteral : ServerCfg :=
  { shortname := "gpt41", openai_model := "gpt-4.1",
    openai_api_base := "https://api.openai.com/v1", openai_api_key := some "sk-abc" }

/-- A concrete endpoint descriptor whose key is an unresolved env reference. -/
def cfgEnvRef : ServerCfg :=
  { shortname := "o3", openai_model := "o3",
    openai_api_base := "https://api.openai.com/v1",
    openai_api_key := some "$\x7bMY_KEY\x7d" }

/-! ## Helper lemmas: `update_server_status` and `add_server_message` -/

theorem update_server_status_status (now : Nat) (si : ServerInfo) (st : Status) :
    (update_server_status now si st).status = st := by
  unfold update_server_status
  split
  · rfl
  · split <;> rfl

theorem update_server_status_lines (now : Nat) (si : ServerInfo) (st : Status) :
    (update_server_status now si st).lines = si.lines := by
  unfold update_server_status
  split
  · rfl
  · split <;> rfl

theorem update_server_status_start_time_frame (now : Nat) (si : ServerInfo) (st : Status)
    (h : ¬(si.status = .Waiting ∧ st = .Running)) :
    (update_server_status now si st).start_time = si.start_time := by
  unfold update_server_status
  rw [if_neg h]
  split <;> rfl

theorem update_server_status_start_time_set (now : Nat) (si : ServerInfo) (st : Status)
    (h1 : si.status = .Waiting) (h2 : st = .Running) :
    (update_server_status now si st).start_time = some now := by
  unfold update_server_status
  rw [if_pos ⟨h1, h2⟩]

theorem update_server_status_end_time_set (now : Nat) (si : ServerInfo) (st : Status)
    (hterm : st = .Success ∨ st = .Failed) (hs : si.start_time.isSome) :
    (update_server_status now si st).end_time = some now := by
  unfold update_server_status
  have hne : ¬(si.status = .Waiting ∧ st = .Running) := by
    rcases hterm with h | h <;> simp [h]
  rw [if_neg hne, if_pos ⟨hterm, hs⟩]

theorem add_server_message_status (now : Nat) (si : ServerInfo) (m : String) (e : Bool) :
    (add_server_message now si m e).status = si.status := by
  simp only [add_server_message]
  split <;> rfl

theorem add_server_message_start_time (now : Nat) (si : ServerInfo) (m : String) (e : Bool) :
    (add_server_message now si m e).start_time = si.start_time := by
  simp only [add_server_message]
  split <;> rfl

theorem add_server_message_end_time (now : Nat) (si : ServerInfo) (m : String) (e : Bool) :
    (add_server_message now si m e).end_time = si.end_time := by
  simp only [add_server_message]
  split <;> rfl

theorem lastN_of_length_le {l : List α} {n : Nat} (h : l.length ≤ n) : lastN n l = l := by
  unfold lastN
  have h0 : l.length - n = 0 := by omega
  simp [h0]

theorem lastN_append_lastN (n : Nat) (l l₂ : List α) :
    lastN n (lastN n l ++ l₂) = lastN n (l ++ l₂) := by
  unfold lastN
  rw [(List.drop_append_of_le_length (Nat.sub_le l.length n)).symm, List.drop_drop]
  congr 1
  simp only [List.length_drop, List.length_append]
  omega

theorem add_server_message_lines (now : Nat) (si : ServerInfo) (m : String) (e : Bool) :
    (add_server_message now si m e).lines
      = lastN 20 (si.lines ++ [{ timestamp := now, message := m, is_error := e }]) := by
  simp only [add_server_message]
  split
  · rfl
  · next h =>
    dsimp only
    exact (lastN_of_length_le (by omega)).symm

theorem add_server_message_length_le (now : Nat) (si : ServerInfo) (m : String) (e : Bool) :
    (add_server_message now si m e).lines.length ≤ 20 := by
  simp only [add_server_message]
  split
  · dsimp only
    rw [List.length_drop]
    omega
  · next h =>
    dsimp only
    omega

theorem add_server_message_getLast (now : Nat) (si : ServerInfo) (m : String) (e : Bool) :
    (add_server_message now si m e).lines.getLast?
      = some { timestamp := now, message := m, is_error := e } := by
  rw [add_server_message_lines]
  unfold lastN
  rw [List.drop_append_of_le_length
      (by simp only [List.length_append, List.length_cons, List.length_nil]; omega),
    List.getLast?_concat]

theorem addAll_lines (msgs : List (Nat × String × Bool)) :
    ∀ si : ServerInfo, si.lines.length ≤ 20 →
      (addAll si msgs).lines = lastN 20 (si.lines ++ msgs.map mkLine) := by
  induction msgs with
  | nil =>
    intro si h
    simp [addAll, lastN_of_length_le h]
  | cons x rest ih =>
    intro si h
    obtain ⟨t, m, e⟩ := x
    show (addAll (add_server_message t si m e) rest).lines = _
    rw [ih _ (add_server_message_length_le t si m e), add_server_message_lines,
      lastN_append_lastN]
    simp [mkLine]

/-! ## Helper lemmas: probe reductions -/



@[simp] theorem pset_si (st : Status) (p : ProbeSt) :
    (pset st p).si = update_server_status p.t p.si st := rfl

@[simp] theorem pset_t (st : Status) (p : ProbeSt) : (pset st p).t = p.t + 1 := rfl

@[simp] theorem pset_evs (st : Status) (p : ProbeSt) :
    (pset st p).evs = p.evs ++ [.setStatus st] := rfl

@[simp] theorem pmsg_si (m : String) (e : Bool) (p : ProbeSt) :
    (pmsg m e p).si = add_server_message p.t p.si m e := rfl

@[simp] theorem pmsg_t (m : String) (e : Bool) (p : ProbeSt) : (pmsg m e p).t = p.t + 1 := rfl

@[simp] theorem pmsg_evs (m : String) (e : Bool) (p : ProbeSt) :
    (pmsg m e p).evs = p.evs ++ [.logMsg m e] := rfl

@[simp] theorem statusEvents_nil : statusEvents [] = [] := rfl

@[simp] theorem statusEvents_append (a b : List PEv) :
    statusEvents (a ++ b) = statusEvents a ++ statusEvents b :=
  List.filterMap_append a b _

@[simp] theorem statusEvents_logMsg (m : String) (e : Bool) (l : List PEv) :
    statusEvents (.logMsg m e :: l) = statusEvents l := rfl

@[simp] theorem statusEvents_setStatus (st : Status) (l : List PEv) :
    statusEvents (.setStatus st :: l) = st :: statusEvents l := rfl

@[simp] theorem statusEvents_remoteCall (l : List PEv) :
    statusEvents (.remoteCall :: l) = statusEvents l := rfl

theorem probeFail_snd (m : String) (p : ProbeSt) : (probeFail m p).2 = false := rfl

theorem probeFail_status (m : String) (p : ProbeSt) :
    (probeFail m p).1.si.status = .Failed := by
  simp [probeFail, update_server_status_status]

theorem probeFail_start_time (m : String) (p : ProbeSt) :
    (probeFail m p).1.si.start_time = p.si.start_time := by
  simp [probeFail]
  rw [update_server_status_start_time_frame _ _ _ (by simp)]
  exact add_server_message_start_time _ _ _ _

theorem probeFail_getLast (m : String) (p : ProbeSt) :
    (probeFail m p).1.si.lines.getLast? = some { timestamp := p.t, message := m, is_error := true } := by
  simp [probeFail, update_server_status_lines, add_server_message_getLast]

theorem probeFail_evs (m : String) (p : ProbeSt) :
    (probeFail m p).1.evs = p.evs ++ [.logMsg m true, .setStatus .Failed] := by
  simp [probeFail]

theorem probeFail_statusEvents (m : String) (p : ProbeSt) :
    statusEvents (probeFail m p).1.evs = statusEvents p.evs ++ [Status.Failed] := by
  rw [probeFail_evs]
  simp [statusEvents]




theorem probeCall_failure (mn : String) (call : CallResult) (p : ProbeSt)
    (h : isFailureCall call = true) :
    (probeCall mn call p).2 = false ∧ (probeCall mn call p).1.si.status = .Failed ∧
      ∃ l, (probeCall mn call p).1.si.lines.getLast? = some l ∧ l.is_error = true := by
  cases call with
  | ok choices usage => simp [isFailureCall] at h
  | authError m =>
    refine ⟨?_, ?_, ?_⟩ <;> simp only [probeCall]
    · exact probeFail_snd _ _
    · exact probeFail_status _ _
    · exact ⟨_, probeFail_getLast _ _, rfl⟩
  | rateLimitError m =>
    refine ⟨?_, ?_, ?_⟩ <;> simp only [probeCall]
    · exact probeFail_snd _ _
    · exact probeFail_status _ _
    · exact ⟨_, probeFail_getLast _ _, rfl⟩
  | connectionError m =>
    refine ⟨?_, ?_, ?_⟩ <;> simp only [probeCall]
    · exact probeFail_snd _ _
    · exact probeFail_status _ _
    · exact ⟨_, probeFail_getLast _ _, rfl⟩
  | timeoutError m =>
    refine ⟨?_, ?_, ?_⟩ <;> simp only [probeCall]
    · exact probeFail_snd _ _
    · exact probeFail_status _ _
    · exact ⟨_, probeFail_getLast _ _, rfl⟩
  | apiError m =>
    refine ⟨?_, ?_, ?_⟩ <;> simp only [probeCall]
    · exact probeFail_snd _ _
    · exact probeFail_status _ _
    · exact ⟨_, probeFail_getLast _ _, rfl⟩
  | unexpectedError m =>
    refine ⟨?_, ?_, ?_⟩ <;> simp only [probeCall]
    · exact probeFail_snd _ _
    · exact probeFail_status _ _
    · exact ⟨_, probeFail_getLast _ _, rfl⟩

theorem probeCall_ok_cons (mn : String) (c : Option String) (rest : List (Option String))
    (usage : Option Usage) (p : ProbeSt) :
    (probeCall mn (.ok (c :: rest) usage) p).2 = true ∧
    (probeCall mn (.ok (c :: rest) usage) p).1.si.status = .Success ∧
    (contentFalsy c = true →
      PEv.logMsg "Response: EMPTY (model connected but returned no content)" true
        ∈ (probeCall mn (.ok (c :: rest) usage) p).1.evs) := by
  refine ⟨?_, ?_, ?_⟩
  · simp only [probeCall]
  · simp only [probeCall, pset_si]
    cases usage <;> exact update_server_status_status _ _ _
  · intro hc
    simp only [probeCall]
    rw [if_pos hc]
    cases usage <;> simp [pset_evs, pmsg_evs, List.mem_append]


theorem probeCall_statusEvents (mn : String) (call : CallResult) (p : ProbeSt) :
    ∃ st, (st = Status.Success ∨ st = Status.Failed) ∧
      statusEvents (probeCall mn call p).1.evs = statusEvents p.evs ++ [st] ∧
      (probeCall mn call p).1.si.status = st := by
  cases call with
  | ok choices usage =>
    cases choices with
    | nil =>
      refine ⟨.Failed, Or.inr rfl, ?_, by simp only [probeCall]; exact probeFail_status _ _⟩
      simp only [probeCall]
      rw [probeFail_statusEvents]
      rcases hm : modelParams mn with _ | n <;> simp
    | cons c rest =>
      refine ⟨.Success, Or.inl rfl, ?_,
        by simp only [probeCall, pset_si]; exact update_server_status_status _ _ _⟩
      simp only [probeCall]
      rcases hm : modelParams mn with _ | n <;>
        rcases hc : contentFalsy c <;> cases usage <;> simp
  | authError m =>
    refine ⟨.Failed, Or.inr rfl, ?_, by simp only [probeCall]; exact probeFail_status _ _⟩
    simp only [probeCall]
    rw [probeFail_statusEvents]
    rcases hm : modelParams mn with _ | n <;> simp
  | rateLimitError m =>
    refine ⟨.Failed, Or.inr rfl, ?_, by simp only [probeCall]; exact probeFail_status _ _⟩
    simp only [probeCall]
    rw [probeFail_statusEvents]
    rcases hm : modelParams mn with _ | n <;> simp
  | connectionError m =>
    refine ⟨.Failed, Or.inr rfl, ?_, by simp only [probeCall]; exact probeFail_status _ _⟩
    simp only [probeCall]
    rw [probeFail_statusEvents]
    rcases hm : modelParams mn with _ | n <;> simp
  | timeoutError m =>
    refine ⟨.Failed, Or.inr rfl, ?_, by simp only [probeCall]; exact probeFail_status _ _⟩
    simp only [probeCall]
    rw [probeFail_statusEvents]
    rcases hm : modelParams mn with _ | n <;> simp
  | apiError m =>
    refine ⟨.Failed, Or.inr rfl, ?_, by simp only [probeCall]; exact probeFail_status _ _⟩
    simp only [probeCall]
    rw [probeFail_statusEvents]
    rcases hm : modelParams mn with _ | n <;> simp
  | unexpectedError m =>
    refine ⟨.Failed, Or.inr rfl, ?_, by simp only [probeCall]; exact probeFail_status _ _⟩
    simp only [probeCall]
    rw [probeFail_statusEvents]
    rcases hm : modelParams mn with _ | n <;> simp

theorem probeCall_start_time (mn : String) (call : CallResult) (p : ProbeSt) :
    (probeCall mn call p).1.si.start_time = p.si.start_time := by
  have hfail : ∀ (m : String) (q : ProbeSt),
      (probeFail m q).1.si.start_time = q.si.start_time := probeFail_start_time
  have hmsg := add_server_message_start_time
  cases call with
  | ok choices usage =>
    cases choices with
    | nil =>
      simp only [probeCall]
      rw [hfail]
      rcases hm : modelParams mn with _ | n <;> simp [hmsg]
    | cons c rest =>
      simp only [probeCall, pset_si]
      rw [update_server_status_start_time_frame _ _ _ (by simp)]
      rcases hm : modelParams mn with _ | n <;>
        rcases hc : contentFalsy c <;> cases usage <;> simp [hmsg]
  | authError m =>
    simp only [probeCall]
    rw [hfail]
    rcases hm : modelParams mn with _ | n <;> simp [hmsg]
  | rateLimitError m =>
    simp only [probeCall]
    rw [hfail]
    rcases hm : modelParams mn with _ | n <;> simp [hmsg]
  | connectionError m =>
    simp only [probeCall]
    rw [hfail]
    rcases hm : modelParams mn with _ | n <;> simp [hmsg]
  | timeoutError m =>
    simp only [probeCall]
    rw [hfail]
    rcases hm : modelParams mn with _ | n <;> simp [hmsg]
  | apiError m =>
    simp only [probeCall]
    rw [hfail]
    rcases hm : modelParams mn with _ | n <;> simp [hmsg]
  | unexpectedError m =>
    simp only [probeCall]
    rw [hfail]
    rcases hm : modelParams mn with _ | n <;> simp [hmsg]

theorem probeCall_true_status (mn : String) (call : CallResult) (p : ProbeSt)
    (h : (probeCall mn call p).2 = true) :
    (probeCall mn call p).1.si.status = .Success := by
  cases call with
  | ok choices usage =>
    cases choices with
    | nil =>
      exfalso
      simp only [probeCall] at h
      rw [probeFail_snd] at h
      exact Bool.false_ne_true h
    | cons c rest =>
      simp only [probeCall, pset_si]
      exact update_server_status_status _ _ _
  | authError m =>
    exfalso; simp only [probeCall] at h; rw [probeFail_snd] at h; exact Bool.false_ne_true h
  | rateLimitError m =>
    exfalso; simp only [probeCall] at h; rw [probeFail_snd] at h; exact Bool.false_ne_true h
  | connectionError m =>
    exfalso; simp only [probeCall] at h; rw [probeFail_snd] at h; exact Bool.false_ne_true h
  | timeoutError m =>
    exfalso; simp only [probeCall] at h; rw [probeFail_snd] at h; exact Bool.false_ne_true h
  | apiError m =>
    exfalso; simp only [probeCall] at h; rw [probeFail_snd] at h; exact Bool.false_ne_true h
  | unexpectedError m =>
    exfalso; simp only [probeCall] at h; rw [probeFail_snd] at h; exact Bool.false_ne_true h


theorem strFalsy_of_pyStartswith (s : String) (h : pyStartswith s "$\x7b" = true) :
    strFalsy s = false := by
  unfold pyStartswith at h
  unfold strFalsy
  cases hd : s.data with
  | nil => rw [hd] at h; exact absurd h (by decide)
  | cons a l => rfl

theorem probe_envref_unresolved (env : String → Option String) (mn : String) (call : CallResult)
    (p : ProbeSt) (s : String)
    (hpre : pyStartswith s "$\x7b" = true) (hsuf : pyEndswith s "\x7d" = true)
    (henv : optFalsy (env (pySlice2m1 s)) = true) :
    test_openai_endpoint_curses env mn (some s) call p
      = probeFail ("Error: Environment variable " ++ pySlice2m1 s ++ " not set")
          (pmsg "Starting test..." false (pset .Running p)) := by
  have hsf : strFalsy s = false := strFalsy_of_pyStartswith s hpre
  have hopt : optFalsy (some s) = false := hsf
  unfold test_openai_endpoint_curses
  rw [if_neg (by simp [hopt])]
  dsimp only
  rw [if_neg (by simp [hsf]), if_pos (by simp [hpre, hsuf])]
  rcases hE : env (pySlice2m1 s) with _ | v
  · rfl
  · rw [hE] at henv
    simp only [optFalsy] at henv
    dsimp only
    rw [if_pos henv]

theorem probe_unresolved (env : String → Option String) (mn : String) (key : Option String)
    (call : CallResult) (p : ProbeSt) (h : resolveKey env key = none) :
    ∃ m, test_openai_endpoint_curses env mn key call p
      = probeFail m (pmsg "Starting test..." false (pset .Running p)) := by
  unfold resolveKey at h
  unfold test_openai_endpoint_curses
  rcases hA : (if optFalsy key then env "OPENAI_API_KEY" else key) with _ | k
  · exact ⟨_, rfl⟩
  · rw [hA] at h
    dsimp only at h ⊢
    by_cases hf : strFalsy k
    · rw [if_pos hf]
      exact ⟨_, rfl⟩
    · rw [if_neg hf] at h ⊢
      by_cases hp : (pyStartswith k "$\x7b" && pyEndswith k "\x7d") = true
      · rw [if_pos hp] at h ⊢
        rcases hE : env (pySlice2m1 k) with _ | v
        · exact ⟨_, rfl⟩
        · rw [hE] at h
          dsimp only at h ⊢
          by_cases hv : strFalsy v
          · rw [if_pos hv]
            exact ⟨_, rfl⟩
          · rw [if_neg hv] at h
            simp at h
      · rw [if_neg hp] at h
        simp at h

theorem probe_resolved (env : String → Option String) (mn : String) (key : Option String)
    (call : CallResult) (p : ProbeSt) (h : resolveKey env key ≠ none) :
    test_openai_endpoint_curses env mn key call p
      = probeCall mn call (pmsg "Starting test..." false (pset .Running p)) := by
  unfold resolveKey at h
  unfold test_openai_endpoint_curses
  rcases hA : (if optFalsy key then env "OPENAI_API_KEY" else key) with _ | k
  · rw [hA] at h
    simp at h
  · rw [hA] at h
    dsimp only at h ⊢
    by_cases hf : strFalsy k
    · simp [hf] at h
    · rw [if_neg hf] at h ⊢
      by_cases hp : (pyStartswith k "$\x7b" && pyEndswith k "\x7d") = true
      · rw [if_pos hp] at h ⊢
        rcases hE : env (pySlice2m1 k) with _ | v
        · rw [hE] at h
          simp at h
        · rw [hE] at h
          dsimp only at h ⊢
          by_cases hv : strFalsy v
          · simp [hv] at h
          · rw [if_neg hv]
      · rw [if_neg hp] at h ⊢

theorem probe_statusEvents (env : String → Option String) (mn : String) (key : Option String)
    (call : CallResult) (p : ProbeSt) :
    ∃ st, (st = Status.Success ∨ st = Status.Failed) ∧
      statusEvents (test_openai_endpoint_curses env mn key call p).1.evs
        = statusEvents p.evs ++ [Status.Running, st] ∧
      (test_openai_endpoint_curses env mn key call p).1.si.status = st := by
  rcases hres : resolveKey env key with _ | v
  · obtain ⟨m, hm⟩ := probe_unresolved env mn key call p hres
    rw [hm]
    exact ⟨.Failed, Or.inr rfl, by rw [probeFail_statusEvents]; simp, probeFail_status _ _⟩
  · rw [probe_resolved env mn key call p (by simp [hres])]
    obtain ⟨st, h1, h2, h3⟩ :=
      probeCall_statusEvents mn call (pmsg "Starting test..." false (pset .Running p))
    exact ⟨st, h1, by rw [h2]; simp, h3⟩

theorem probe_start_time_frame (env : String → Option String) (mn : String) (key : Option String)
    (call : CallResult) (p : ProbeSt) (h : p.si.status ≠ .Waiting) :
    (test_openai_endpoint_curses env mn key call p).1.si.start_time = p.si.start_time := by
  rcases hres : resolveKey env key with _ | v
  · obtain ⟨m, hm⟩ := probe_unresolved env mn key call p hres
    rw [hm, probeFail_start_time, pmsg_si, add_server_message_start_time, pset_si,
      update_server_status_start_time_frame _ _ _ (fun hh => h hh.1)]
  · rw [probe_resolved env mn key call p (by simp [hres]), probeCall_start_time, pmsg_si,
      add_server_message_start_time, pset_si,
      update_server_status_start_time_frame _ _ _ (fun hh => h hh.1)]

theorem probe_true_status (env : String → Option String) (mn : String) (key : Option String)
    (call : CallResult) (p : ProbeSt)
    (h : (test_openai_endpoint_curses env mn key call p).2 = true) :
    (test_openai_endpoint_curses env mn key call p).1.si.status = .Success := by
  rcases hres : resolveKey env key with _ | v
  · obtain ⟨m, hm⟩ := probe_unresolved env mn key call p hres
    rw [hm, probeFail_snd] at h
    exact absurd h (by decide)
  · rw [probe_resolved env mn key call p (by simp [hres])] at h ⊢
    exact probeCall_true_status _ _ _ h

/-! ## Helper lemmas: event loop -/

theorem cooldownLoop_true_iff (inp : Nat → Cmd) (n : Nat) : ∀ k : Nat,
    ((cooldownLoop inp k n).1 = true ↔ noQuitWindow inp k n = true) := by
  induction n with
  | zero => intro k; simp [cooldownLoop, noQuitWindow]
  | succ m ih =>
    intro k
    cases hc : inp k with
    | quit => simp [cooldownLoop, noQuitWindow, hc]
    | refresh => simp [cooldownLoop, noQuitWindow, hc, ih]
    | resize => simp [cooldownLoop, noQuitWindow, hc, ih]
    | cnone => simp [cooldownLoop, noQuitWindow, hc, ih]

theorem cooldownLoop_polls (inp : Nat → Cmd) (n : Nat) : ∀ k : Nat,
    noQuitWindow inp k n = true →
    cooldownLoop inp k n = (true, k + n, pollWindow inp k n) := by
  induction n with
  | zero => intro k _; simp [cooldownLoop, pollWindow]
  | succ m ih =>
    intro k h
    rw [noQuitWindow, Bool.and_eq_true] at h
    obtain ⟨h1, h2⟩ := h
    cases hc : inp k with
    | quit => rw [hc] at h1; simp at h1
    | refresh =>
      rw [pollWindow]
      simp only [cooldownLoop, hc, ih (k + 1) h2]
      have hk : k + 1 + m = k + (m + 1) := by omega
      rw [hk]
    | resize =>
      rw [pollWindow]
      simp only [cooldownLoop, hc, ih (k + 1) h2]
      have hk : k + 1 + m = k + (m + 1) := by omega
      rw [hk]
    | cnone =>
      rw [pollWindow]
      simp only [cooldownLoop, hc, ih (k + 1) h2]
      have hk : k + 1 + m = k + (m + 1) := by omega
      rw [hk]


theorem cooldownLoop_quit (inp : Nat → Cmd) (j : Nat) : ∀ n k : Nat, j < n →
    noQuitWindow inp k j = true → inp (k + j) = Cmd.quit →
    cooldownLoop inp k n = (false, k + j + 1, pollWindow inp k j ++ [Ev.poll Cmd.quit]) := by
  induction j with
  | zero =>
    intro n k hj _ hq
    cases n with
    | zero => omega
    | succ m =>
      rw [Nat.add_zero] at hq
      simp [cooldownLoop, hq, pollWindow]
  | succ i ih =>
    intro n k hj hb hq
    cases n with
    | zero => omega
    | succ m =>
      rw [noQuitWindow, Bool.and_eq_true] at hb
      obtain ⟨h1, h2⟩ := hb
      have hq' : inp (k + 1 + i) = Cmd.quit := by
        rw [show k + 1 + i = k + (i + 1) from by omega]
        exact hq
      cases hc : inp k with
      | quit => rw [hc] at h1; simp at h1
      | refresh =>
        rw [pollWindow]
        simp only [cooldownLoop, hc, ih m (k + 1) (by omega) h2 hq']
        have hk : k + 1 + i + 1 = k + (i + 1) + 1 := by omega
        rw [hk]
        rfl
      | resize =>
        rw [pollWindow]
        simp only [cooldownLoop, hc, ih m (k + 1) (by omega) h2 hq']
        have hk : k + 1 + i + 1 = k + (i + 1) + 1 := by omega
        rw [hk]
        rfl
      | cnone =>
        rw [pollWindow]
        simp only [cooldownLoop, hc, ih m (k + 1) (by omega) h2 hq']
        have hk : k + 1 + i + 1 = k + (i + 1) + 1 := by omega
        rw [hk]
        rfl

theorem cooldownLoop_no_runTests (inp : Nat → Cmd) (n : Nat) : ∀ k : Nat,
    ((cooldownLoop inp k n).2.2.countP isRunTestsEv = 0) := by
  induction n with
  | zero => intro k; simp [cooldownLoop]
  | succ m ih =>
    intro k
    cases hc : inp k with
    | quit => simp [cooldownLoop, hc, isRunTestsEv]
    | refresh => simp [cooldownLoop, hc, isRunTestsEv, ih]
    | resize => simp [cooldownLoop, hc, isRunTestsEv, ih]
    | cnone => simp [cooldownLoop, hc, isRunTestsEv, ih]

theorem pollWindow_countP_poll (inp : Nat → Cmd) (n : Nat) : ∀ k : Nat,
    (pollWindow inp k n).countP isPollEv = n := by
  induction n with
  | zero => intro k; simp [pollWindow]
  | succ m ih => intro k; simp [pollWindow, isPollEv, ih]

theorem pollWindow_countP_run (inp : Nat → Cmd) (n : Nat) : ∀ k : Nat,
    (pollWindow inp k n).countP isRunTestsEv = 0 := by
  induction n with
  | zero => intro k; simp [pollWindow]
  | succ m ih => intro k; simp [pollWindow, isRunTestsEv, ih]

theorem mainLoop_not_running (delayTicks : Nat) (inp : Nat → Cmd) (n : Nat) (s : MainSt)
    (h : s.running = false) :
    mainLoop delayTicks inp n s = (s, []) := by
  cases n <;> simp [mainLoop, h]

theorem mainLoop_completed (delayTicks : Nat) (inp : Nat → Cmd) (n : Nat) :
    ∀ s : MainSt, s.running = true → s.test_completed = true →
      noQuitWindow inp s.k n = true →
      mainLoop delayTicks inp n s = ({ s with k := s.k + n }, pollWindow inp s.k n) := by
  induction n with
  | zero => intro s h1 h2 h3; simp [mainLoop, pollWindow]
  | succ m ih =>
    intro s h1 h2 h3
    obtain ⟨r, tc, it, k⟩ := s
    simp only at h1 h2 h3 ⊢
    subst h1
    subst h2
    rw [noQuitWindow, Bool.and_eq_true] at h3
    obtain ⟨hq1, hq2⟩ := h3
    have hne : inp k ≠ Cmd.quit := by
      intro hcc
      rw [hcc] at hq1
      simp at hq1
    have ihx := ih { running := true, test_completed := true, iteration := it, k := k + 1 } rfl rfl hq2
    simp only at ihx
    rw [show k + 1 + m = k + (m + 1) from by omega] at ihx
    simp [mainLoop, outerBody, hne, ihx, pollWindow]


theorem outerBody_iteration_iff (delayTicks : Nat) (inp : Nat → Cmd) (s : MainSt)
    (hrun : s.running = true) :
    ((outerBody delayTicks inp s).1.iteration = s.iteration + 1 ↔
      (s.test_completed = false ∧ delayTicks ≠ 0 ∧ inp s.k ≠ Cmd.quit ∧
        noQuitWindow inp (s.k + 1) delayTicks = true)) := by
  obtain ⟨r, tc, it, k⟩ := s
  simp only at hrun ⊢
  subst hrun
  cases tc with
  | true => simp [outerBody]
  | false =>
    rcases hd : delayTicks with _ | d
    · simp [outerBody]
    · by_cases hq : inp k = Cmd.quit
      · simp [outerBody, hq]
      · by_cases hcd : (cooldownLoop inp (k + 1) (d + 1)).1 = true
        · have hnq := (cooldownLoop_true_iff inp (d + 1) (k + 1)).mp hcd
          simp [outerBody, hq, hcd, hnq]
        · have hnq : ¬ noQuitWindow inp (k + 1) (d + 1) = true :=
            fun hh => hcd ((cooldownLoop_true_iff inp (d + 1) (k + 1)).mpr hh)
          simp [outerBody, hq, hcd, hnq]

theorem mainLoop_zero_delay (inp : Nat → Cmd) (n : Nat)
    (h : noQuitWindow inp 0 (n + 1) = true) :
    mainLoop 0 inp (n + 1) initMainSt
      = ({ running := true, test_completed := true, iteration := 1, k := 1 + n },
          Ev.poll (inp 0) :: Ev.runTests 1 :: pollWindow inp 1 n) := by
  rw [noQuitWindow, Bool.and_eq_true] at h
  obtain ⟨h0, h1⟩ := h
  have hne : inp 0 ≠ Cmd.quit := by intro hc; rw [hc] at h0; simp at h0
  simp only [Nat.zero_add] at h1
  have hrest := mainLoop_completed 0 inp n
    { running := true, test_completed := true, iteration := 1, k := 1 } rfl rfl h1
  simp only at hrest
  simp [mainLoop, initMainSt, outerBody, hne, hrest]


/-! ## Further helper lemmas for the per-server wrappers -/

theorem test_server_failure (env : String → Option String) (scfg : ServerCfg)
    (call : CallResult) (p : ProbeSt)
    (hres : resolveKey env scfg.openai_api_key ≠ none) (hfail : isFailureCall call = true) :
    (test_server_curses env scfg call p).2 = false ∧
    (test_server_curses env scfg call p).1.si.status = .Failed := by
  unfold test_server_curses
  rw [probe_resolved _ _ _ _ _ hres]
  have h := probeCall_failure scfg.openai_model call
    (pmsg "Starting test..." false
      (pset .Running (pmsg ("API Base: " ++ scfg.openai_api_base) false p))) hfail
  exact ⟨h.1, h.2.1⟩

theorem test_server_true_status (env : String → Option String) (scfg : ServerCfg)
    (call : CallResult) (p : ProbeSt)
    (h : (test_server_curses env scfg call p).2 = true) :
    (test_server_curses env scfg call p).1.si.status = .Success := by
  unfold test_server_curses at h ⊢
  exact probe_true_status _ _ _ _ _ h

/-! ## Claim theorems -/

/-- C3: `message_log` (the `lines` buffer) holds at most 20 entries after any
append, and after more than 20 appends to a freshly created record the
retained entries are exactly the last 20 appended, in order (oldest evicted
first). -/
theorem C3_message_log_bound :
    (∀ (now : Nat) (si : ServerInfo) (m : String) (e : Bool),
      (add_server_message now si m e).lines.length ≤ 20) ∧
    (∀ msgs : List (Nat × String × Bool), 20 < msgs.length →
      (addAll initServerInfo msgs).lines = (msgs.map mkLine).drop (msgs.length - 20)) := by
  constructor
  · exact add_server_message_length_le
  · intro msgs h
    rw [addAll_lines msgs initServerInfo (by simp [initServerInfo])]
    unfold lastN
    simp [initServerInfo]

theorem C3_message_log_bound_witness :
    20 < msgs21.length ∧
    (addAll initServerInfo msgs21).lines = (msgs21.map mkLine).drop (msgs21.length - 20) :=
  ⟨by decide, C3_message_log_bound.2 msgs21 (by decide)⟩


/-- C4: the layout grid rule of `setup_windows` — N≤2 gives 1×N, N≤4 gives
2×2, N≤6 gives 2×3, N≤9 gives 3×3, otherwise ceil(N/3)×3; the region of index
`i` sits at row `i / cols`, column `i % cols`; the grid covers all N endpoints
with at most one under-filled row. -/
theorem C4_layout_grid (n max_y max_x i : Nat) (h : 1 ≤ n) :
    (n ≤ 2 → grid_rows_cols n = (1, n)) ∧
    (2 < n ∧ n ≤ 4 → grid_rows_cols n = (2, 2)) ∧
    (4 < n ∧ n ≤ 6 → grid_rows_cols n = (2, 3)) ∧
    (6 < n ∧ n ≤ 9 → grid_rows_cols n = (3, 3)) ∧
    (9 < n → grid_rows_cols n = ((n + 2) / 3, 3) ∧
      n ≤ 3 * ((n + 2) / 3) ∧ 3 * ((n + 2) / 3) < n + 3) ∧
    n ≤ (grid_rows_cols n).1 * (grid_rows_cols n).2 ∧
    ((grid_rows_cols n).1 - 1) * (grid_rows_cols n).2 < n ∧
    (setup_windows_region max_y max_x n i).y
      = header_height + (i / (grid_rows_cols n).2)
          * ((max_y - header_height - footer_height) / (grid_rows_cols n).1) ∧
    (setup_windows_region max_y max_x n i).x
      = (i % (grid_rows_cols n).2) * (max_x / (grid_rows_cols n).2) := by
  refine ⟨?_, ?_, ?_, ?_, ?_, ?_, ?_, rfl, rfl⟩
  · intro h2
    unfold grid_rows_cols
    rw [if_pos h2]
  · rintro ⟨ha, hb⟩
    unfold grid_rows_cols
    rw [if_neg (by omega), if_pos hb]
  · rintro ⟨ha, hb⟩
    unfold grid_rows_cols
    rw [if_neg (by omega), if_neg (by omega), if_pos hb]
  · rintro ⟨ha, hb⟩
    unfold grid_rows_cols
    rw [if_neg (by omega), if_neg (by omega), if_neg (by omega), if_pos hb]
  · intro ha
    unfold grid_rows_cols
    rw [if_neg (by omega), if_neg (by omega), if_neg (by omega), if_neg (by omega)]
    exact ⟨rfl, by omega, by omega⟩
  · unfold grid_rows_cols
    split_ifs <;> dsimp <;> omega
  · unfold grid_rows_cols
    split_ifs <;> dsimp <;> omega

theorem C4_layout_grid_witness :
    ((11 : Nat) ≤ 2 → grid_rows_cols 11 = (1, 11)) ∧
    (2 < 11 ∧ (11 : Nat) ≤ 4 → grid_rows_cols 11 = (2, 2)) ∧
    (4 < 11 ∧ (11 : Nat) ≤ 6 → grid_rows_cols 11 = (2, 3)) ∧
    (6 < 11 ∧ (11 : Nat) ≤ 9 → grid_rows_cols 11 = (3, 3)) ∧
    ((9 : Nat) < 11 → grid_rows_cols 11 = ((11 + 2) / 3, 3) ∧
      11 ≤ 3 * ((11 + 2) / 3) ∧ 3 * ((11 + 2) / 3) < 11 + 3) ∧
    11 ≤ (grid_rows_cols 11).1 * (grid_rows_cols 11).2 ∧
    ((grid_rows_cols 11).1 - 1) * (grid_rows_cols 11).2 < 11 ∧
    (setup_windows_region 30 120 11 7).y
      = header_height + (7 / (grid_rows_cols 11).2)
          * ((30 - header_height - footer_height) / (grid_rows_cols 11).1) ∧
    (setup_windows_region 30 120 11 7).x
      = (7 % (grid_rows_cols 11).2) * (120 / (grid_rows_cols 11).2) :=
  C4_layout_grid 11 30 120 7 (by decide)

/-- C10: `update_server_status` assigns `start_time` exactly on the
Waiting→Running transition; on every other transition (in particular a
terminal status going back to Running at the start of a later iteration)
`start_time` is untouched, while a terminal transition with `start_time` set
re-assigns `end_time`; consequently a whole probe leaves `start_time`
unchanged whenever the endpoint was not in Waiting. -/
theorem C10_start_time_frame :
    (∀ (now : Nat) (si : ServerInfo) (st : Status),
      si.status = .Waiting → st = .Running →
        (update_server_status now si st).start_time = some now) ∧
    (∀ (now : Nat) (si : ServerInfo) (st : Status),
      ¬(si.status = .Waiting ∧ st = .Running) →
        (update_server_status now si st).start_time = si.start_time) ∧
    (∀ (now : Nat) (si : ServerInfo) (st : Status),
      (st = .Success ∨ st = .Failed) → si.start_time.isSome →
        (update_server_status now si st).end_time = some now) ∧
    (∀ (env : String → Option String) (mn : String) (key : Option String)
        (call : CallResult) (p : ProbeSt), p.si.status ≠ .Waiting →
      (test_openai_endpoint_curses env mn key call p).1.si.start_time = p.si.start_time) :=
  ⟨update_server_status_start_time_set, update_server_status_start_time_frame,
   update_server_status_end_time_set, probe_start_time_frame⟩

theorem C10_start_time_frame_witness :
    (update_server_status 5 initServerInfo .Running).start_time = some 5 ∧
    (update_server_status 9
        { initServerInfo with status := .Success, start_time := some 3 } .Running).start_time
      = some 3 ∧
    (update_server_status 9
        { initServerInfo with status := .Running, start_time := some 3 } .Success).end_time
      = some 9 ∧
    (test_openai_endpoint_curses envSecret "m" (some "sk") callOkBasic
        { si := { initServerInfo with status := .Success, start_time := some 3 },
          t := 50, evs := [] }).1.si.start_time = some 3 :=
  ⟨C10_start_time_frame.1 5 initServerInfo .Running rfl rfl,
   C10_start_time_frame.2.1 9 _ .Running (by decide),
   C10_start_time_frame.2.2.1 9 _ .Success (Or.inl rfl) rfl,
   C10_start_time_frame.2.2.2 envSecret "m" (some "sk") callOkBasic _ (by decide)⟩


/-- C1 counterexample: over two iterations of a successfully probed endpoint
the status history is Waiting, Running, Success, Running, Success — `Running`
reappears after the terminal `Success` with no intervening `Waiting`, so the
claim's final conjunct ("Running never reappears after a terminal status
without a new Waiting") is false on the code. -/
theorem C1_counterexample : ¬ specNoRunningAfterTerminalWithoutWaiting c1history := by
  have hh : c1history
      = [Status.Waiting, Status.Running, Status.Success, Status.Running, Status.Success] := by
    decide
  rw [hh]
  unfold specNoRunningAfterTerminalWithoutWaiting
  decide

/-- C1 amended: the statuses set by one probe are exactly `Running` followed by
one terminal status (`Success` or `Failed`), which is also the final stored
status; hence within an iteration the only transitions are old→Running→terminal
(from `Waiting` this is Waiting→Running→terminal and a later iteration moves
terminal→Running without skipping Running), but a new iteration re-enters
`Running` directly from the terminal status with no intervening `Waiting`
(Waiting recurs only when a refresh rebuilds the windows). -/
theorem C1_amended_probe_transitions (env : String → Option String) (mn : String)
    (key : Option String) (call : CallResult) (p : ProbeSt) :
    ∃ st, (st = Status.Success ∨ st = Status.Failed) ∧
      statusEvents (test_openai_endpoint_curses env mn key call p).1.evs
        = statusEvents p.evs ++ [Status.Running, st] ∧
      (test_openai_endpoint_curses env mn key call p).1.si.status = st :=
  probe_statusEvents env mn key call p

/-- C5: when the remote call returns a response with at least one choice the
probe returns `True` and sets status `Success`, even when the choice's content
is empty; the empty-content case additionally logs the distinguishable
"Response: EMPTY" warning instead of being classified as Failed. -/
theorem C5_nonempty_choices_success (env : String → Option String) (mn : String)
    (key : Option String) (c : Option String) (rest : List (Option String))
    (usage : Option Usage) (p : ProbeSt)
    (hres : resolveKey env key ≠ none) :
    (test_openai_endpoint_curses env mn key (.ok (c :: rest) usage) p).2 = true ∧
    (test_openai_endpoint_curses env mn key (.ok (c :: rest) usage) p).1.si.status = .Success ∧
    (contentFalsy c = true →
      PEv.logMsg "Response: EMPTY (model connected but returned no content)" true
        ∈ (test_openai_endpoint_curses env mn key (.ok (c :: rest) usage) p).1.evs) := by
  rw [probe_resolved env mn key _ p hres]
  exact probeCall_ok_cons mn c rest usage _

theorem C5_nonempty_choices_success_witness :
    (test_openai_endpoint_curses envSecret "m" (some "sk") (.ok [some ""] none) probeSt0).2
        = true ∧
    (test_openai_endpoint_curses envSecret "m" (some "sk")
        (.ok [some ""] none) probeSt0).1.si.status = .Success ∧
    (contentFalsy (some "") = true →
      PEv.logMsg "Response: EMPTY (model connected but returned no content)" true
        ∈ (test_openai_endpoint_curses envSecret "m" (some "sk")
            (.ok [some ""] none) probeSt0).1.evs) :=
  C5_nonempty_choices_success envSecret "m" (some "sk") (some "") [] none probeSt0 (by decide)

/-- C6: an endpoint whose `api_key` is an unresolved `$\x7bVAR\x7d` environment
reference fails its probe before any remote call: status `Failed`, the
credential error message is the last logged line, the probe returns `False`,
no `remoteCall` action is emitted, and every other endpoint's result in a
probe round is untouched (each round entry depends only on its own item). -/
theorem C6_envref_unresolved_failure (env : String → Option String) (mn : String)
    (call : CallResult) (p : ProbeSt) (s : String)
    (hpre : pyStartswith s "$\x7b" = true) (hsuf : pyEndswith s "\x7d" = true)
    (henv : optFalsy (env (pySlice2m1 s)) = true) :
    (test_openai_endpoint_curses env mn (some s) call p).2 = false ∧
    (test_openai_endpoint_curses env mn (some s) call p).1.si.status = .Failed ∧
    (test_openai_endpoint_curses env mn (some s) call p).1.si.lines.getLast?
      = some { timestamp := p.t + 2,
               message := "Error: Environment variable " ++ pySlice2m1 s ++ " not set",
               is_error := true } ∧
    (test_openai_endpoint_curses env mn (some s) call p).1.evs.countP isRemoteCallEv
      = p.evs.countP isRemoteCallEv ∧
    (∀ (env2 : String → Option String) (items : List (ServerCfg × CallResult × ProbeSt))
        (idx : Nat) (x : ServerCfg × CallResult × ProbeSt) (j : Nat), j ≠ idx →
      (run_tests_curses env2 (items.set idx x))[j]? = (run_tests_curses env2 items)[j]?) := by
  rw [probe_envref_unresolved env mn call p s hpre hsuf henv]
  refine ⟨probeFail_snd _ _, probeFail_status _ _, ?_, ?_, ?_⟩
  · exact probeFail_getLast ("Error: Environment variable " ++ pySlice2m1 s ++ " not set")
      (pmsg "Starting test..." false (pset .Running p))
  · rw [probeFail_evs]
    simp [List.countP_append, isRemoteCallEv]
  · intro env2 items idx x j hj
    unfold run_tests_curses
    rw [List.getElem?_map, List.getElem?_map, List.getElem?_set_ne (Ne.symm hj)]

theorem C6_envref_unresolved_failure_witness :
    (test_openai_endpoint_curses envUnset "m" (some "$\x7bMY_KEY\x7d") callOkBasic probeSt0).2
        = false ∧
    (test_openai_endpoint_curses envUnset "m" (some "$\x7bMY_KEY\x7d")
        callOkBasic probeSt0).1.si.status = .Failed ∧
    (test_openai_endpoint_curses envUnset "m" (some "$\x7bMY_KEY\x7d")
        callOkBasic probeSt0).1.si.lines.getLast?
      = some { timestamp := probeSt0.t + 2,
               message := "Error: Environment variable "
                 ++ pySlice2m1 "$\x7bMY_KEY\x7d" ++ " not set",
               is_error := true } ∧
    (test_openai_endpoint_curses envUnset "m" (some "$\x7bMY_KEY\x7d")
        callOkBasic probeSt0).1.evs.countP isRemoteCallEv
      = probeSt0.evs.countP isRemoteCallEv ∧
    (run_tests_curses envUnset
        ([(cfgLiteral, callOkBasic, probeSt0)].set 0 (cfgEnvRef, callOkBasic, probeSt0)))[1]?
      = (run_tests_curses envUnset [(cfgLiteral, callOkBasic, probeSt0)])[1]? := by
  have h := C6_envref_unresolved_failure envUnset "m" callOkBasic probeSt0 "$\x7bMY_KEY\x7d"
    (by decide) (by decide) (by decide)
  exact ⟨h.1, h.2.1, h.2.2.1, h.2.2.2.1,
    h.2.2.2.2 envUnset [(cfgLiteral, callOkBasic, probeSt0)] 0 (cfgEnvRef, callOkBasic, probeSt0)
      1 (by decide)⟩

/-- C7: every classified remote-call failure is caught inside the probe and
converted into status `Failed` with an error line as the last log entry, and
the probe returns `False` — the orchestrator never sees a raised exception. -/
theorem C7_classified_failures_contained (env : String → Option String) (mn : String)
    (key : Option String) (call : CallResult) (p : ProbeSt)
    (hres : resolveKey env key ≠ none) (hfail : isFailureCall call = true) :
    (test_openai_endpoint_curses env mn key call p).2 = false ∧
    (test_openai_endpoint_curses env mn key call p).1.si.status = .Failed ∧
    ∃ l, (test_openai_endpoint_curses env mn key call p).1.si.lines.getLast? = some l ∧
      l.is_error = true := by
  rw [probe_resolved env mn key call p hres]
  exact probeCall_failure mn call _ hfail

theorem C7_classified_failures_contained_witness :
    (test_openai_endpoint_curses envSecret "m" (some "sk")
        (.timeoutError "request timed out") probeSt0).2 = false ∧
    (test_openai_endpoint_curses envSecret "m" (some "sk")
        (.timeoutError "request timed out") probeSt0).1.si.status = .Failed ∧
    ∃ l, (test_openai_endpoint_curses envSecret "m" (some "sk")
        (.timeoutError "request timed out") probeSt0).1.si.lines.getLast? = some l ∧
      l.is_error = true :=
  C7_classified_failures_contained envSecret "m" (some "sk") (.timeoutError "request timed out")
    probeSt0 (by decide) rfl


/-- C8: with three endpoints whose probes respectively succeed, raise an
authentication failure and raise a timeout, one probe round yields the status
list Success, Failed, Failed and the round's all-succeeded flag (the
conjunction of the per-probe results) is false. -/
theorem C8_mixed_round_statuses (env : String → Option String)
    (s1 s2 s3 : ServerCfg) (c1 : CallResult) (p1 p2 p3 : ProbeSt) (m2 m3 : String)
    (h1 : (test_server_curses env s1 c1 p1).2 = true)
    (h2 : resolveKey env s2.openai_api_key ≠ none)
    (h3 : resolveKey env s3.openai_api_key ≠ none) :
    ((run_tests_curses env
        [(s1, c1, p1), (s2, .authError m2, p2), (s3, .timeoutError m3, p3)]).map
      fun r => r.1.si.status) = [Status.Success, Status.Failed, Status.Failed] ∧
    all_success (run_tests_curses env
        [(s1, c1, p1), (s2, .authError m2, p2), (s3, .timeoutError m3, p3)]) = false := by
  have e1 := test_server_true_status env s1 c1 p1 h1
  have e2 := test_server_failure env s2 (.authError m2) p2 h2 rfl
  have e3 := test_server_failure env s3 (.timeoutError m3) p3 h3 rfl
  constructor
  · simp [run_tests_curses, e1, e2.2, e3.2]
  · simp [run_tests_curses, all_success, e2.1]

theorem C8_mixed_round_statuses_witness :
    ((run_tests_curses envSecret
        [(cfgLiteral, callOkBasic, probeSt0), (cfgLiteral, .authError "bad key", probeSt0),
         (cfgLiteral, .timeoutError "timed out", probeSt0)]).map
      fun r => r.1.si.status) = [Status.Success, Status.Failed, Status.Failed] ∧
    all_success (run_tests_curses envSecret
        [(cfgLiteral, callOkBasic, probeSt0), (cfgLiteral, .authError "bad key", probeSt0),
         (cfgLiteral, .timeoutError "timed out", probeSt0)]) = false :=
  C8_mixed_round_statuses envSecret cfgLiteral cfgLiteral cfgLiteral callOkBasic
    probeSt0 probeSt0 probeSt0 "bad key" "timed out" (by decide) (by decide) (by decide)

/-- C2 counterexample: with delay one tick and a quit request pending from the
moment the probes are dispatched (the first poll returns no key, every later
poll returns quit), the loop's event trace is poll, runTests, poll-quit: the
whole probe round runs to completion — and its results are collected — before
the quit is ever observed, and no poll event occurs between dispatch and
completion, refuting "consulted at every tick during Dispatching/Awaiting" and
"Terminated within one poll tick without waiting for probe completion". -/
theorem C2_counterexample :
    (mainLoop 1 inpQuitAfterDispatch 2 initMainSt).2
        = [Ev.poll Cmd.cnone, Ev.runTests 1, Ev.poll Cmd.quit] ∧
    (mainLoop 1 inpQuitAfterDispatch 2 initMainSt).1.running = false ∧
    (mainLoop 1 inpQuitAfterDispatch 2 initMainSt).1.iteration = 1 := by
  decide

/-- C2 amended: during Cooldown the poller is consulted at every tick and a
quit at cooldown tick j stops the loop within that tick — the trace ends at
that poll, no further probe round starts, the iteration counter is unchanged
and the loop is no longer running; during Dispatching/Awaiting the poller is
not consulted (the trace shows no poll between the pass's top poll and the
probe round), so a quit issued mid-flight takes effect only at the first poll
after the round completes, whose results are all collected. -/
theorem C2_amended_cooldown_quit (delayTicks : Nat) (inp : Nat → Cmd) (fuel j : Nat)
    (s : MainSt) (hrun : s.running = true) (htc : s.test_completed = false)
    (htop : inp s.k ≠ Cmd.quit) (hj : j < delayTicks)
    (hbefore : noQuitWindow inp (s.k + 1) j = true)
    (hquit : inp (s.k + 1 + j) = Cmd.quit) :
    (mainLoop delayTicks inp (fuel + 1) s).1.running = false ∧
    (mainLoop delayTicks inp (fuel + 1) s).1.iteration = s.iteration ∧
    (mainLoop delayTicks inp (fuel + 1) s).2
      = Ev.poll (inp s.k) :: Ev.runTests s.iteration ::
          (pollWindow inp (s.k + 1) j ++ [Ev.poll Cmd.quit]) := by
  have hcd := cooldownLoop_quit inp j delayTicks (s.k + 1) hj hbefore hquit
  obtain ⟨r, tc, it, k⟩ := s
  simp only at hrun htc htop hcd ⊢
  subst hrun
  subst htc
  have hdnz : ¬ delayTicks = 0 := by omega
  rw [mainLoop]
  simp [outerBody, htop, hdnz, hcd, mainLoop_not_running]

theorem C2_amended_cooldown_quit_witness :
    (mainLoop 3 inpQuitAt2 6 initMainSt).1.running = false ∧
    (mainLoop 3 inpQuitAt2 6 initMainSt).1.iteration = initMainSt.iteration ∧
    (mainLoop 3 inpQuitAt2 6 initMainSt).2
      = Ev.poll (inpQuitAt2 initMainSt.k) :: Ev.runTests initMainSt.iteration ::
          (pollWindow inpQuitAt2 (initMainSt.k + 1) 1 ++ [Ev.poll Cmd.quit]) :=
  C2_amended_cooldown_quit 3 inpQuitAt2 5 1 initMainSt rfl rfl (by decide) (by decide)
    (by decide) (by decide)

/-- C9: the iteration counter increments in a loop pass exactly when that pass
ran the probes, the delay is nonzero and no quit was polled at the pass top or
during the cooldown (refresh/resize polls are irrelevant to the condition);
cooldown polls never start a probe round; and at zero delay exactly one probe
round runs while the loop keeps polling indefinitely and stays running. -/
theorem C9_iteration_and_zero_delay :
    (∀ (delayTicks : Nat) (inp : Nat → Cmd) (s : MainSt), s.running = true →
      ((outerBody delayTicks inp s).1.iteration = s.iteration + 1 ↔
        (s.test_completed = false ∧ delayTicks ≠ 0 ∧ inp s.k ≠ Cmd.quit ∧
          noQuitWindow inp (s.k + 1) delayTicks = true))) ∧
    (∀ (inp : Nat → Cmd) (k n : Nat),
      (cooldownLoop inp k n).2.2.countP isRunTestsEv = 0) ∧
    (∀ (inp : Nat → Cmd) (n : Nat), noQuitWindow inp 0 (n + 1) = true →
      (mainLoop 0 inp (n + 1) initMainSt).1.running = true ∧
      (mainLoop 0 inp (n + 1) initMainSt).2.countP isRunTestsEv = 1 ∧
      (mainLoop 0 inp (n + 1) initMainSt).2.countP isPollEv = n + 1) := by
  refine ⟨outerBody_iteration_iff, fun inp k n => cooldownLoop_no_runTests inp n k, ?_⟩
  intro inp n h
  rw [mainLoop_zero_delay inp n h]
  refine ⟨rfl, ?_, ?_⟩
  · simp [List.countP_cons, isRunTestsEv, pollWindow_countP_run inp n 1]
  · simp [List.countP_cons, isPollEv, pollWindow_countP_poll inp n 1]

theorem C9_iteration_and_zero_delay_witness :
    ((outerBody 2 inpAllNone initMainSt).1.iteration = initMainSt.iteration + 1 ↔
      (initMainSt.test_completed = false ∧ (2 : Nat) ≠ 0 ∧
        inpAllNone initMainSt.k ≠ Cmd.quit ∧
        noQuitWindow inpAllNone (initMainSt.k + 1) 2 = true)) ∧
    ((cooldownLoop inpAllNone 0 3).2.2.countP isRunTestsEv = 0) ∧
    ((mainLoop 0 inpAllNone 4 initMainSt).1.running = true ∧
      (mainLoop 0 inpAllNone 4 initMainSt).2.countP isRunTestsEv = 1 ∧
      (mainLoop 0 inpAllNone 4 initMainSt).2.countP isPollEv = 4) := by
  obtain ⟨h1, h2, h3⟩ := C9_iteration_and_zero_delay
  exact ⟨h1 2 inpAllNone initMainSt rfl, h2 inpAllNone 0 3, h3 inpAllNone 3 (by decide)⟩

end SimpleChat
